import Mathlib

/-!
Shallow embedding of the filter-to-SQL compiler `CreateWhereClause`
(`src/unnamed/part_000` of the repository): the class that serializes a
MongoDB-style filter object into a parameterized SQL `WHERE` clause plus an
ordered list of string bind parameters.

Modelling conventions:
* JavaScript runtime values appearing in filters are modelled by `JsonVal`.
  Numbers are modelled as exact rationals: the source only ever applies
  `Number.isInteger` (here: denominator = 1) and `toString` (here: exact
  decimal rendering) to them, and the values in scope are decimal literals.
* Thrown `Error`s are modelled as `Except.error` carrying the exact message
  string built by the source's template literals.
* The `console.warn` side effect on the plain-string encoding branch is not
  observable in the returned value and is not modelled.
* `key.startsWith("$")` is modelled by inspecting the first character, and
  string falsiness (`!value`) by equality with `""`.
-/

namespace CreateWhereClause

/-- JavaScript values that can occur inside a `Filter` object: strings,
numbers (exact rationals, see module comment), booleans, plain objects
(ordered field lists with distinct keys, as produced by object literals) and
arrays. The TS value domain contains no `null`/`undefined`. -/
inductive JsonVal where
  | str (s : String)
  | num (q : ℚ)
  | bool (b : Bool)
  | obj (fields : List (String × JsonVal))
  | arr (elems : List JsonVal)

/-- JS `typeof value`. -/
def typeofStr : JsonVal → String
  | .str _ => "string"
  | .num _ => "number"
  | .bool _ => "boolean"
  | .obj _ => "object"
  | .arr _ => "object"

/-- JS truthiness test (`!value` is `jsFalsy value`): the empty string, `0`
and `false` are falsy; objects and arrays are always truthy. -/
def jsFalsy : JsonVal → Bool
  | .str s => s = ""
  | .num q => q = 0
  | .bool b => !b
  | .obj _ => false
  | .arr _ => false

/-- `Number.isInteger(value)`. -/
def numIsInteger : JsonVal → Bool
  | .num q => q.den = 1
  | _ => false

/-- `"type" in value`: property existence; of the values in the TS domain
only plain objects can carry a `type` key (arrays have none). -/
def jsHasType : JsonVal → Bool
  | .obj fs => fs.any (fun kv => kv.1 = "type")
  | _ => false

/-- `Object.entries(value)` for the values on which the source calls it:
the own enumerable entries of an object, index/character entries of arrays
and strings, and nothing for primitives. -/
def jsObjEntries : JsonVal → List (String × JsonVal)
  | .obj fs => fs
  | .arr es => es.enum.map (fun p => (toString p.1, p.2))
  | .str s => s.data.enum.map (fun p => (toString p.1, .str (String.mk [p.2])))
  | _ => []

/-- `key.startsWith("$")`. -/
def startsWithDollar (key : String) : Bool :=
  match key.data with
  | c :: _ => c = '$'
  | [] => false

/-- Decimal rendering of a JS number (`value.toString()`): integers render
without a fractional part, finite decimals with one; the fallback branch is
unreachable for the decimal literals in the modelled value domain. -/
def numToString (q : ℚ) : String :=
  if q.den = 1 then toString q.num
  else
    let sign := if q.num < 0 then "-" else ""
    let n := q.num.natAbs
    match (List.range 40).find? (fun k => 10 ^ k % q.den == 0) with
    | some k =>
        let scaled := n * 10 ^ k / q.den
        let ip := scaled / 10 ^ k
        let fp := scaled % 10 ^ k
        let fpStr := toString fp
        sign ++ toString ip ++ "." ++
          String.mk (List.replicate (k - fpStr.length) '0') ++ fpStr
    | none => sign ++ toString n ++ "/" ++ toString q.den

mutual
/-- JS string conversion `value.toString()` / `String(value)`. -/
def jsToString : JsonVal → String
  | .str s => s
  | .num q => numToString q
  | .bool b => if b then "true" else "false"
  | .obj _ => "[object Object]"
  | .arr es => jsToStringElems es

/-- `Array.prototype.toString`: elements converted and joined with `,`. -/
def jsToStringElems : List JsonVal → String
  | [] => ""
  | [v] => jsToString v
  | v :: rest => jsToString v ++ "," ++ jsToStringElems rest
end

/-- The escaping `JSON.stringify` applies inside string literals (quotes and
backslashes; no control characters occur in the modelled values). -/
def jsEscape (s : String) : String :=
  s.data.foldl
    (fun acc c =>
      acc ++ (if c = '\x22' then "\\\x22"
              else if c = '\x5c' then "\\\x5c"
              else String.mk [c])) ""

mutual
/-- `JSON.stringify(value)` over the modelled value domain. -/
def jsStringify : JsonVal → String
  | .str s => "\x22" ++ jsEscape s ++ "\x22"
  | .num q => numToString q
  | .bool b => if b then "true" else "false"
  | .obj fs => "\x7b" ++ jsStringifyFields fs ++ "\x7d"
  | .arr es => "[" ++ jsStringifyElems es ++ "]"

def jsStringifyFields : List (String × JsonVal) → String
  | [] => ""
  | [(k, v)] => "\x22" ++ jsEscape k ++ "\x22:" ++ jsStringify v
  | (k, v) :: rest =>
      "\x22" ++ jsEscape k ++ "\x22:" ++ jsStringify v ++ "," ++
        jsStringifyFields rest

def jsStringifyElems : List JsonVal → String
  | [] => ""
  | [v] => jsStringify v
  | v :: rest => jsStringify v ++ "," ++ jsStringifyElems rest
end

/-- `(statement.match(/\?/g) || []).length`: the number of literal `?`
characters in a string. -/
def countQ (s : String) : Nat :=
  s.data.countP (fun c => c = '?')

/-- `COMPARISONS_TO_SQL` table. -/
def COMPARISONS_TO_SQL : List (String × String) :=
  [("$eq", "="), ("$ne", "<>"), ("$lt", "<"), ("$lte", "<="),
   ("$gt", ">"), ("$gte", ">=")]

/-- `IN_OPERATORS_TO_SQL` table. -/
def IN_OPERATORS_TO_SQL : List (String × String) :=
  [("$in", "IN"), ("$nin", "NOT IN")]

def BETWEEN_OPERATOR : String := "$between"

def LIKE_OPERATOR : String := "$like"

def CONTAINS_OPERATOR : String := "$contains"

/-- Values of the `COLUMN_OPERATORS` table: a plain SQL keyword, or the
`CONTAINS_NEEDS_SPECIAL_SYNTAX` sentinel symbol. -/
inductive ColumnOpSql where
  | sql (keyword : String)
  | containsSpecialSyntax

/-- `sqlOperator as string`: the cast applied in the non-containment
branches, where the sentinel never occurs (containment is dispatched
beforehand). -/
def columnOpKeyword : ColumnOpSql → String
  | .sql k => k
  | .containsSpecialSyntax => "CONTAINS_NEEDS_SPECIAL_SYNTAX"

/-- `COLUMN_OPERATORS` table: comparisons and set operators spread in, plus
`BETWEEN`, `LIKE` and the containment sentinel. -/
def COLUMN_OPERATORS : List (String × ColumnOpSql) :=
  (COMPARISONS_TO_SQL ++ IN_OPERATORS_TO_SQL).map
      (fun p => (p.1, ColumnOpSql.sql p.2))
    ++ [(BETWEEN_OPERATOR, .sql "BETWEEN"), (LIKE_OPERATOR, .sql "LIKE"),
        (CONTAINS_OPERATOR, .containsSpecialSyntax)]

/-- `LOGICAL_OPERATORS_TO_SQL` table. -/
def LOGICAL_OPERATORS_TO_SQL : List (String × String) :=
  [("$and", "AND"), ("$or", "OR")]

/-- The two configuration values captured from the `HanaDB` instance at
construction: `getSpecificMetadataColumns()` and `getMetadataColumn()`. -/
structure Config where
  specificMetadataColumns : List String
  metadataColumn : String

/-- `createSelector`: a quoted identifier for a dedicated metadata column,
otherwise a JSON-path extraction against the shared metadata column. -/
def createSelector (cfg : Config) (column : String) : String :=
  if cfg.specificMetadataColumns.contains column then
    "\x22" ++ column ++ "\x22"
  else
    "JSON_VALUE(" ++ cfg.metadataColumn ++ ", \x27$." ++ column ++ "\x27)"

/-- `determineTypedSqlPlaceholder`: type-directed literal encoding returning
one placeholder expression and one string parameter. -/
def determineTypedSqlPlaceholder (value : JsonVal) :
    Except String (String × String) :=
  match value with
  | .bool b => .ok ("TO_BOOLEAN(?)", if b then "true" else "false")
  | .num q => .ok ("TO_DOUBLE(?)", numToString q)
  | .str s =>
      if s = "" then .error "No operands provided"
      else .ok ("?", s)
  | .obj fs =>
      match fs.lookup "type" with
      | some (.str "date") =>
          match fs.lookup "date" with
          | some d => .ok ("TO_DATE(?)", jsToString d)
          | none =>
              .error
                "TypeError: Cannot read properties of undefined (reading \x27toString\x27)"
      | _ => .error ("Cannot handle value " ++ jsStringify (.obj fs))
  | .arr es => .error ("Cannot handle value " ++ jsStringify (.arr es))

/-- `sqlSerializeColumnOperation`: compiles one `column operator operands`
triple into a SQL boolean fragment and its parameters. -/
def sqlSerializeColumnOperation (cfg : Config) (column operator : String)
    (operands : JsonVal) : Except String (String × List String) :=
  if (LOGICAL_OPERATORS_TO_SQL.lookup operator).isSome then
    .error ("Did not expect a logical operator, but got " ++ operator)
  else
    match COLUMN_OPERATORS.lookup operator with
    | none => .error (operator ++ " is not a valid column operator.")
    | some sqlOperator =>
        let selector := createSelector cfg column
        if operator = CONTAINS_OPERATOR then do
          let (placeholder, value) ← determineTypedSqlPlaceholder operands
          .ok ("SCORE(" ++ placeholder ++ " IN (\x22" ++ column ++
                 "\x22 EXACT SEARCH MODE \x27text\x27)) > 0",
               [value])
        else if operator = BETWEEN_OPERATOR then
          match operands with
          | .arr [fromOperand, toOperand] => do
              let (fromPlaceholder, fromValue) ←
                determineTypedSqlPlaceholder fromOperand
              let (toPlaceholder, toValue) ←
                determineTypedSqlPlaceholder toOperand
              .ok (selector ++ " " ++ columnOpKeyword sqlOperator ++ " " ++
                     fromPlaceholder ++ " AND " ++ toPlaceholder,
                   [fromValue, toValue])
          | _ =>
              .error ("Expected 2 operands for BETWEEN, but got " ++
                jsStringify operands)
        else if (IN_OPERATORS_TO_SQL.lookup operator).isSome then
          match operands with
          | .arr es => do
              let placeholderValueList ← es.mapM determineTypedSqlPlaceholder
              .ok (selector ++ " " ++ columnOpKeyword sqlOperator ++ " (" ++
                     String.intercalate ", "
                       (placeholderValueList.map Prod.fst) ++ ")",
                   placeholderValueList.map Prod.snd)
          | _ =>
              .error ("Expected an array for IN operator, but got " ++
                jsStringify operands)
        else do
          let (placeholder, value) ← determineTypedSqlPlaceholder operands
          .ok (selector ++ " " ++ columnOpKeyword sqlOperator ++ " " ++
                 placeholder,
               [value])

/-- `sqlSerializeLogicalClauses`: joins sibling clause fragments with a
logical SQL keyword, parenthesizing each when there are several. -/
def sqlSerializeLogicalClauses (sqlOperator : String)
    (sqlClauses : List String) : Except String String :=
  let supportedOperators := LOGICAL_OPERATORS_TO_SQL.map Prod.snd
  if ¬ supportedOperators.contains sqlOperator then
    .error (sqlOperator ++ " is not in supported operators: " ++
      String.intercalate "," supportedOperators)
  else if sqlClauses.length = 0 then
    .error "sqlClauses is empty"
  else if sqlClauses.any (fun c => c = "") then
    .error ("Empty sql clause found in " ++
      jsStringify (.arr (sqlClauses.map .str)))
  else
    match sqlClauses with
    | [c] => .ok c
    | _ =>
        .ok (String.intercalate (" " ++ sqlOperator ++ " ")
          (sqlClauses.map (fun c => "(" ++ c ++ ")")))

mutual
/-- `createWhereClause`: recursive serialization of one filter node. Only
plain objects are filters in the TS `Filter` type; the degenerate non-object
values (all falsy or keyless ones) reach the source's `Empty filter` guard
the same way. -/
def createWhereClause (cfg : Config) : JsonVal → Except String (String × List String)
  | .obj fields =>
      if fields.length = 0 then .error "Empty filter"
      else do
        let (statements, parameters) ← createWhereClauseEntries cfg fields
        let joined ← sqlSerializeLogicalClauses "AND" statements
        .ok (joined, parameters)
  | _ => .error "Empty filter"

/-- The `for (const [key, value] of Object.entries(filter))` loop body of
`createWhereClause`, accumulating statements and parameters in entry
order. -/
def createWhereClauseEntries (cfg : Config) :
    List (String × JsonVal) → Except String (List String × List String)
  | [] => .ok ([], [])
  | (key, value) :: rest => do
      let (sqlClause, queryParams) ←
        if startsWithDollar key then
          sqlSerializeLogicalOperation cfg key value
        else if typeofStr value = "number" && ! numIsInteger value then
          .error ("Unsupported filter value type: " ++ typeofStr value)
        else if typeofStr value = "object" && ! jsHasType value then
          match jsObjEntries value with
          | [(operator, operands)] =>
              sqlSerializeColumnOperation cfg key operator operands
          | _ =>
              .error ("Expecting a single entry \x27operator: operands\x27, but got "
                ++ jsStringify value)
        else do
          let (placeholder, paramValue) ← determineTypedSqlPlaceholder value
          .ok (createSelector cfg key ++ " = " ++ placeholder, [paramValue])
      let (statements, parameters) ← createWhereClauseEntries cfg rest
      .ok (sqlClause :: statements, queryParams ++ parameters)

/-- `sqlSerializeLogicalOperation`: compiles every child filter of a logical
connective, then joins the fragments. The source casts `value` to `Filter[]`
and iterates it: a non-array value throws a `TypeError` (nonempty strings,
which JS would iterate characterwise, lie outside the TS type). The SQL
keyword lookup `LOGICAL_OPERATORS_TO_SQL[operator]` yields `undefined` for
an unrecognized key; JS renders that value as the string `"undefined"` in
the join routine's template literal and it fails the `includes` check the
same way, which `getD "undefined"` reproduces. -/
def sqlSerializeLogicalOperation (cfg : Config) (operator : String)
    (value : JsonVal) : Except String (String × List String) :=
  match value with
  | .arr operands => do
      let (sqlClauses, queryParams) ← logicalOperands cfg operands
      let joined ← sqlSerializeLogicalClauses
        ((LOGICAL_OPERATORS_TO_SQL.lookup operator).getD "undefined")
        sqlClauses
      .ok (joined, queryParams)
  | _ => .error "TypeError: value is not iterable"

/-- The `for (const operand of operands)` loop of
`sqlSerializeLogicalOperation`: each operand is compiled as a filter. -/
def logicalOperands (cfg : Config) :
    List JsonVal → Except String (List String × List String)
  | [] => .ok ([], [])
  | operand :: rest => do
      let (clause, params) ← createWhereClause cfg operand
      let (clauses, queryParams) ← logicalOperands cfg rest
      .ok (clause :: clauses, params ++ queryParams)
end

/-- `build`: the public entry point. An absent or keyless filter yields the
empty clause; otherwise the compiled statement is checked for
placeholder/parameter parity and prefixed with `WHERE `. -/
def build (cfg : Config) (filter : Option JsonVal) :
    Except String (String × List String) :=
  match filter with
  | none => .ok ("", [])
  | some f =>
      if jsFalsy f || (jsObjEntries f).length = 0 then .ok ("", [])
      else do
        let (statement, parameters) ← createWhereClause cfg f
        let placeholderCount := countQ statement
        if placeholderCount ≠ parameters.length then
          .error ("Internal error: Mismatch between \x27?\x27 placeholders (" ++
            toString placeholderCount ++ ") and parameters (" ++
            toString parameters.length ++ ")")
        else
          .ok ("WHERE " ++ statement, parameters)

/-! ### Shared helper lemmas and concrete configurations -/

theorem countQ_append (a b : String) :
    countQ (a ++ b) = countQ a + countQ b := by
  simp [countQ, String.data_append, List.countP_append]

theorem countQ_WHERE (s : String) : countQ ("WHERE " ++ s) = countQ s := by
  rw [countQ_append]
  simp [show countQ "WHERE " = 0 from rfl]

theorem excBindOk {ε α β : Type} (a : α) (k : α → Except ε β) :
    (Except.ok a : Except ε α) >>= k = k a := rfl

theorem excBindErr {ε α β : Type} (e : ε) (k : α → Except ε β) :
    (Except.error e : Except ε α) >>= k = .error e := rfl

theorem append_ne_empty_right (a b : String) (hb : b ≠ "") : a ++ b ≠ "" := by
  intro h
  apply hb
  have hd := congrArg String.data h
  rw [String.data_append] at hd
  exact String.ext (by simp [(List.append_eq_nil.mp hd).2])

theorem append_ne_empty_left (a b : String) (ha : a ≠ "") : a ++ b ≠ "" := by
  intro h
  apply ha
  have hd := congrArg String.data h
  rw [String.data_append] at hd
  exact String.ext (by simp [(List.append_eq_nil.mp hd).1])

/-- Substring test on the underlying character lists (used to state that an
error message does or does not mention a given token). -/
def substrAux (needle : List Char) : List Char → Bool
  | [] => needle.isEmpty
  | c :: rest => needle.isPrefixOf (c :: rest) || substrAux needle rest

/-- `hay` contains `needle` as a contiguous substring. -/
def strContainsSub (hay needle : String) : Bool :=
  substrAux needle.data hay.data

/-- A configuration with dedicated columns `a`, `b`, `c`. -/
def cfgDedicatedABC : Config := ⟨["a", "b", "c"], "VEC_META"⟩

/-- A configuration with no dedicated columns. -/
def cfgMetaOnly : Config := ⟨[], "VEC_META"⟩

/-- The exact rational value of the JS number literal `3.14`. -/
def q314 : ℚ := ⟨157, 50, by decide, by decide⟩

/-! ### C1 — placeholder/parameter parity of `build` -/

/-- C1: for every filter accepted by `build`, the number of `?` occurrences
in the compiled clause string equals the length of the returned parameter
list (the count equality that `build` asserts before returning). -/
theorem build_placeholder_parameter_parity (cfg : Config)
    (filter : Option JsonVal) (clause : String) (params : List String)
    (h : build cfg filter = .ok (clause, params)) :
    countQ clause = params.length := by
  cases filter with
  | none =>
      simp only [build, Except.ok.injEq, Prod.mk.injEq] at h
      rw [← h.1, ← h.2]
      rfl
  | some f =>
      simp only [build] at h
      split at h
      · simp only [Except.ok.injEq, Prod.mk.injEq] at h
        rw [← h.1, ← h.2]
        rfl
      · cases hcw : createWhereClause cfg f with
        | error e => rw [hcw] at h; exact absurd h (by simp [Bind.bind, Except.bind])
        | ok p =>
            obtain ⟨stmt, ps⟩ := p
            rw [hcw] at h
            simp only [Bind.bind, Except.bind] at h
            split at h
            · exact absurd h (by simp)
            · rename_i hcnt
              simp only [Except.ok.injEq, Prod.mk.injEq] at h
              rw [← h.1, ← h.2, countQ_WHERE]
              omega

/-- C1 witness: the parity theorem applied to a compiled two-key filter. -/
theorem build_placeholder_parameter_parity_witness :
    countQ "WHERE (\"a\" = TO_BOOLEAN(?)) AND (\"b\" = TO_DOUBLE(?))" =
      (["true", "7"] : List String).length :=
  build_placeholder_parameter_parity cfgDedicatedABC
    (some (.obj [("a", .bool true), ("b", .num 7)]))
    "WHERE (\"a\" = TO_BOOLEAN(?)) AND (\"b\" = TO_DOUBLE(?))" ["true", "7"] rfl

/-! ### C7 — empty filter identity and `WHERE ` prefix -/

/-- C7: `build` maps an absent filter and a keyless filter to `("", [])`,
and every other successfully compiled filter to a clause beginning with
`WHERE `. -/
theorem build_empty_identity_and_where_keyword (cfg : Config) :
    build cfg none = .ok ("", []) ∧
    build cfg (some (.obj [])) = .ok ("", []) ∧
    ∀ fields clause params, fields ≠ [] →
      build cfg (some (.obj fields)) = .ok (clause, params) →
      ∃ rest, clause = "WHERE " ++ rest := by
  refine ⟨rfl, rfl, ?_⟩
  intro fields clause params hne h
  simp only [build, jsFalsy, jsObjEntries, List.length_eq_zero] at h
  rw [if_neg (by simpa using hne)] at h
  cases hcw : createWhereClause cfg (.obj fields) with
  | error e => rw [hcw] at h; exact absurd h (by simp [Bind.bind, Except.bind])
  | ok p =>
      obtain ⟨stmt, ps⟩ := p
      rw [hcw] at h
      simp only [Bind.bind, Except.bind] at h
      split at h
      · exact absurd h (by simp)
      · simp only [Except.ok.injEq, Prod.mk.injEq] at h
        exact ⟨stmt, h.1.symm⟩

/-- C7 witness: the theorem instantiated at a one-key filter. -/
theorem build_empty_identity_and_where_keyword_witness :
    ∃ rest, "WHERE \"a\" = TO_BOOLEAN(?)" = "WHERE " ++ rest :=
  (build_empty_identity_and_where_keyword cfgDedicatedABC).2.2
    [("a", .bool true)] "WHERE \"a\" = TO_BOOLEAN(?)" ["true"]
    (by simp) rfl

/-! ### C2 — nesting example -/

/-- The filter of the spec's nesting example. -/
def nestingFilter : JsonVal :=
  .obj [("$or", .arr [.obj [("a", .num 1)],
    .obj [("$and", .arr [.obj [("b", .num 2)], .obj [("c", .num 3)]])]])]

/-- C2 counterexample: the compiled clause parenthesizes every disjunct and
conjunct individually and adds no outer parentheses, so it matches neither
the claim's literal shape `(a = ? OR (b = ? AND c = ?))` nor that shape with
the cast placeholder style. The parameter list is `["1", "2", "3"]`. -/
theorem nesting_shape_counterexample :
    build cfgDedicatedABC (some nestingFilter) =
      .ok ("WHERE (\"a\" = TO_DOUBLE(?)) OR ((\"b\" = TO_DOUBLE(?)) AND (\"c\" = TO_DOUBLE(?)))",
           ["1", "2", "3"]) ∧
    ("WHERE (\"a\" = TO_DOUBLE(?)) OR ((\"b\" = TO_DOUBLE(?)) AND (\"c\" = TO_DOUBLE(?)))" : String) ≠
      "WHERE (\"a\" = ? OR (\"b\" = ? AND \"c\" = ?))" ∧
    ("WHERE (\"a\" = TO_DOUBLE(?)) OR ((\"b\" = TO_DOUBLE(?)) AND (\"c\" = TO_DOUBLE(?)))" : String) ≠
      "WHERE (\"a\" = TO_DOUBLE(?) OR (\"b\" = TO_DOUBLE(?) AND \"c\" = TO_DOUBLE(?)))" :=
  ⟨rfl, by decide, by decide⟩

/-- C2 amended: the nesting example compiles to
`(a = TO_DOUBLE(?)) OR ((b = TO_DOUBLE(?)) AND (c = TO_DOUBLE(?)))`
(with `a`,`b`,`c` rendered as dedicated-column selectors) — each disjunct
and each conjunct individually parenthesized, no enclosing parentheses —
with parameters `["1", "2", "3"]` in that order. -/
theorem nesting_compiles_with_fragment_parentheses :
    build cfgDedicatedABC (some nestingFilter) =
      .ok ("WHERE " ++
             "(\"a\" = TO_DOUBLE(?)) OR ((\"b\" = TO_DOUBLE(?)) AND (\"c\" = TO_DOUBLE(?)))",
           ["1", "2", "3"]) := rfl

/-! ### C3 — non-integer numbers -/

/-- C3 counterexample: the number `3.14` is rejected as a direct property
value, but as the operand of `{"$gt": 3.14}` it is accepted and encoded as a
`TO_DOUBLE(?)` placeholder with parameter `"3.14"` — no type error. -/
theorem noninteger_operand_accepted_counterexample :
    createWhereClause cfgMetaOnly (.obj [("age", .num q314)]) =
      .error "Unsupported filter value type: number" ∧
    createWhereClause cfgMetaOnly (.obj [("age", .obj [("$gt", .num q314)])]) =
      .ok ("JSON_VALUE(VEC_META, \x27$.age\x27) > TO_DOUBLE(?)", ["3.14"]) :=
  ⟨rfl, rfl⟩

/-- C3 amended: a non-integer number raises the type error only as a direct
property value; as an operand inside an `{operator: operand}` entry it is
accepted and encoded as a double-cast placeholder. -/
theorem noninteger_rejected_only_as_direct_value (cfg : Config) (key : String)
    (q : ℚ) (hkey : startsWithDollar key = false) (hq : q.den ≠ 1) :
    createWhereClause cfg (.obj [(key, .num q)]) =
      .error "Unsupported filter value type: number" ∧
    createWhereClause cfg (.obj [(key, .obj [("$gt", .num q)])]) =
      .ok (createSelector cfg key ++ " > TO_DOUBLE(?)", [numToString q]) := by
  constructor
  · simp only [createWhereClause, createWhereClauseEntries, hkey, typeofStr,
      numIsInteger, hq, jsHasType]
    rfl
  · have hne : "" ≠ createSelector cfg key ++ " " ++ ">" ++ " " ++ "TO_DOUBLE(?)" := by
      rw [String.append_assoc, String.append_assoc, String.append_assoc]
      exact (append_ne_empty_right _ _ (by decide)).symm
    simp only [createWhereClause, createWhereClauseEntries, hkey, typeofStr,
      jsHasType, jsObjEntries, sqlSerializeColumnOperation,
      determineTypedSqlPlaceholder, sqlSerializeLogicalClauses,
      LOGICAL_OPERATORS_TO_SQL, COLUMN_OPERATORS, COMPARISONS_TO_SQL,
      IN_OPERATORS_TO_SQL, BETWEEN_OPERATOR, LIKE_OPERATOR, CONTAINS_OPERATOR,
      List.lookup, columnOpKeyword]
    simp [excBindOk, excBindErr, hne]
    rw [String.append_assoc, String.append_assoc, String.append_assoc]
    rfl

/-- C3 witness: the amended theorem applied at key `age` and value `3.14`. -/
theorem noninteger_rejected_only_as_direct_value_witness :
    createWhereClause cfgMetaOnly (.obj [("age", .num q314)]) =
      .error "Unsupported filter value type: number" ∧
    createWhereClause cfgMetaOnly (.obj [("age", .obj [("$gt", .num q314)])]) =
      .ok (createSelector cfgMetaOnly "age" ++ " > TO_DOUBLE(?)",
           [numToString q314]) :=
  noninteger_rejected_only_as_direct_value cfgMetaOnly "age" q314
    (by decide) (by decide)

/-! ### C4 — containment operator column rendering -/

/-- C4 counterexample: with no dedicated columns, `$contains` on key
`quality` renders the column as the quoted identifier `"quality"`, not as
the JSON-path selector that the Column Resolver produces for that key. -/
theorem contains_ignores_selector_counterexample :
    build cfgMetaOnly
        (some (.obj [("quality", .obj [("$contains", .str "good")])])) =
      .ok ("WHERE SCORE(? IN (\"quality\" EXACT SEARCH MODE \x27text\x27)) > 0",
           ["good"]) ∧
    createSelector cfgMetaOnly "quality" = "JSON_VALUE(VEC_META, \x27$.quality\x27)" ∧
    ("WHERE SCORE(? IN (\"quality\" EXACT SEARCH MODE \x27text\x27)) > 0" : String) ≠
      "WHERE SCORE(? IN (JSON_VALUE(VEC_META, \x27$.quality\x27) EXACT SEARCH MODE \x27text\x27)) > 0" :=
  ⟨rfl, rfl, by decide⟩

/-- C4 amended: for every key and every operand the Literal Encoder accepts,
`$contains` emits `SCORE(<placeholder> IN ("<key>" EXACT SEARCH MODE
'text')) > 0` with the raw key as a quoted identifier, regardless of the
column classification. -/
theorem contains_emits_quoted_identifier (cfg : Config)
    (column : String) (operand : JsonVal) (placeholder value : String)
    (h : determineTypedSqlPlaceholder operand = .ok (placeholder, value)) :
    sqlSerializeColumnOperation cfg column "$contains" operand =
      .ok ("SCORE(" ++ placeholder ++ " IN (\x22" ++ column ++
             "\x22 EXACT SEARCH MODE \x27text\x27)) > 0",
           [value]) := by
  simp only [sqlSerializeColumnOperation, LOGICAL_OPERATORS_TO_SQL,
    COLUMN_OPERATORS, COMPARISONS_TO_SQL, IN_OPERATORS_TO_SQL,
    BETWEEN_OPERATOR, LIKE_OPERATOR, CONTAINS_OPERATOR, List.lookup, h]
  simp [excBindOk]

/-- C4 witness: the amended theorem applied to a metadata-stored key. -/
theorem contains_emits_quoted_identifier_witness :
    sqlSerializeColumnOperation cfgMetaOnly "quality" "$contains"
        (.str "good") =
      .ok ("SCORE(" ++ "?" ++ " IN (\x22" ++ "quality" ++
             "\x22 EXACT SEARCH MODE \x27text\x27)) > 0",
           ["good"]) :=
  contains_emits_quoted_identifier cfgMetaOnly "quality" (.str "good")
    "?" "good" rfl

/-! ### C5 — equality sugar vs explicit `$eq` -/

/-- C5 counterexample: for the scalar value `3.14`, the sugar form is
rejected with a type error while the explicit `$eq` form compiles, so the
two forms do not always produce the same result. -/
theorem equality_sugar_counterexample :
    createWhereClause cfgMetaOnly (.obj [("score", .num q314)]) =
      .error "Unsupported filter value type: number" ∧
    createWhereClause cfgMetaOnly (.obj [("score", .obj [("$eq", .num q314)])]) =
      .ok ("JSON_VALUE(VEC_META, \x27$.score\x27) = TO_DOUBLE(?)", ["3.14"]) ∧
    createWhereClause cfgMetaOnly (.obj [("score", .num q314)]) ≠
      createWhereClause cfgMetaOnly (.obj [("score", .obj [("$eq", .num q314)])]) := by
  have h1 : createWhereClause cfgMetaOnly (.obj [("score", .num q314)]) =
      .error "Unsupported filter value type: number" := rfl
  have h2 : createWhereClause cfgMetaOnly
        (.obj [("score", .obj [("$eq", .num q314)])]) =
      .ok ("JSON_VALUE(VEC_META, \x27$.score\x27) = TO_DOUBLE(?)", ["3.14"]) := rfl
  refine ⟨h1, h2, ?_⟩
  intro h
  rw [h1, h2] at h
  exact Except.noConfusion h

/-- C5 amended: for every scalar value except a non-integer number (i.e.
booleans, integer numbers, strings and type-tagged objects), the equality
sugar `{key: v}` compiles to exactly the same result — same clause, same
parameters, same error on an unencodable value — as the explicit
`{key: {"$eq": v}}` form. -/
theorem equality_sugar_equivalence (cfg : Config) (key : String) (v : JsonVal)
    (hkey : startsWithDollar key = false)
    (hscalar : typeofStr v = "object" → jsHasType v = true)
    (hint : ∀ r, v = .num r → r.den = 1) :
    createWhereClause cfg (.obj [(key, v)]) =
      createWhereClause cfg (.obj [(key, .obj [("$eq", v)])]) := by
  have hsel : ∀ ph : String, ("" : String) ≠ createSelector cfg key ++ " = " ++ ph := by
    intro ph
    exact (append_ne_empty_left _ _ (append_ne_empty_right _ _ (by decide))).symm
  have hsel2 : ∀ ph : String,
      ("" : String) ≠ createSelector cfg key ++ " " ++ "=" ++ " " ++ ph := by
    intro ph
    exact (append_ne_empty_left _ _
      (append_ne_empty_left _ _ (append_ne_empty_right _ _ (by decide)))).symm
  cases v with
  | num r =>
      have hr : r.den = 1 := hint r rfl
      simp only [createWhereClause, createWhereClauseEntries, hkey, typeofStr,
        numIsInteger, hr, jsHasType, jsObjEntries, sqlSerializeColumnOperation,
        determineTypedSqlPlaceholder, sqlSerializeLogicalClauses,
        LOGICAL_OPERATORS_TO_SQL, COLUMN_OPERATORS, COMPARISONS_TO_SQL,
        IN_OPERATORS_TO_SQL, BETWEEN_OPERATOR, LIKE_OPERATOR, CONTAINS_OPERATOR,
        List.lookup, columnOpKeyword]
      simp [excBindOk, excBindErr, hsel _, hsel2 _]
      simp only [String.append_assoc]
      rfl
  | bool b =>
      simp only [createWhereClause, createWhereClauseEntries, hkey, typeofStr,
        numIsInteger, jsHasType, jsObjEntries, sqlSerializeColumnOperation,
        determineTypedSqlPlaceholder, sqlSerializeLogicalClauses,
        LOGICAL_OPERATORS_TO_SQL, COLUMN_OPERATORS, COMPARISONS_TO_SQL,
        IN_OPERATORS_TO_SQL, BETWEEN_OPERATOR, LIKE_OPERATOR, CONTAINS_OPERATOR,
        List.lookup, columnOpKeyword]
      simp [excBindOk, excBindErr, hsel _, hsel2 _]
      simp only [String.append_assoc]
      rfl
  | str s =>
      by_cases hs : s = ""
      · subst hs
        simp only [createWhereClause, createWhereClauseEntries, hkey, typeofStr,
          numIsInteger, jsHasType, jsObjEntries, sqlSerializeColumnOperation,
          determineTypedSqlPlaceholder, sqlSerializeLogicalClauses,
          LOGICAL_OPERATORS_TO_SQL, COLUMN_OPERATORS, COMPARISONS_TO_SQL,
          IN_OPERATORS_TO_SQL, BETWEEN_OPERATOR, LIKE_OPERATOR, CONTAINS_OPERATOR,
          List.lookup, columnOpKeyword]
        simp [excBindOk, excBindErr]
      · simp only [createWhereClause, createWhereClauseEntries, hkey, typeofStr,
          numIsInteger, jsHasType, jsObjEntries, sqlSerializeColumnOperation,
          determineTypedSqlPlaceholder, sqlSerializeLogicalClauses,
          LOGICAL_OPERATORS_TO_SQL, COLUMN_OPERATORS, COMPARISONS_TO_SQL,
          IN_OPERATORS_TO_SQL, BETWEEN_OPERATOR, LIKE_OPERATOR, CONTAINS_OPERATOR,
          List.lookup, columnOpKeyword, hs]
        simp [excBindOk, excBindErr, hs, hsel _, hsel2 _]
        simp only [String.append_assoc]
        rfl
  | obj fs =>
      have ht : jsHasType (.obj fs) = true := hscalar rfl
      have hany : (fs.any fun kv => decide (kv.1 = "type")) = true := by
        simpa [jsHasType] using ht
      cases hdet : determineTypedSqlPlaceholder (.obj fs) with
      | error e =>
          simp only [createWhereClause, createWhereClauseEntries, hkey, typeofStr,
            numIsInteger, jsHasType, ht, jsObjEntries, sqlSerializeColumnOperation,
            sqlSerializeLogicalClauses,
            LOGICAL_OPERATORS_TO_SQL, COLUMN_OPERATORS, COMPARISONS_TO_SQL,
            IN_OPERATORS_TO_SQL, BETWEEN_OPERATOR, LIKE_OPERATOR, CONTAINS_OPERATOR,
            List.lookup, columnOpKeyword]
          simp [excBindOk, excBindErr, hany, hdet]
      | ok pp =>
          obtain ⟨ph, p⟩ := pp
          simp only [createWhereClause, createWhereClauseEntries, hkey, typeofStr,
            numIsInteger, jsHasType, ht, jsObjEntries, sqlSerializeColumnOperation,
            sqlSerializeLogicalClauses,
            LOGICAL_OPERATORS_TO_SQL, COLUMN_OPERATORS, COMPARISONS_TO_SQL,
            IN_OPERATORS_TO_SQL, BETWEEN_OPERATOR, LIKE_OPERATOR, CONTAINS_OPERATOR,
            List.lookup, columnOpKeyword]
          simp [excBindOk, excBindErr, hany, hdet, hsel _, hsel2 _]
          simp only [String.append_assoc]
          rfl
  | arr es => exact absurd (hscalar rfl) (by simp [jsHasType])

/-- C5 witness: the equivalence theorem applied at `{status: "active"}`. -/
theorem equality_sugar_equivalence_witness :
    createWhereClause cfgMetaOnly (.obj [("status", .str "active")]) =
      createWhereClause cfgMetaOnly
        (.obj [("status", .obj [("$eq", .str "active")])]) :=
  equality_sugar_equivalence cfgMetaOnly "status" (.str "active")
    (by decide) (by simp [typeofStr]) (by intro r h; cases h)

/-! ### C6 — the shared logical-join routine -/

/-- C6: the logical-join routine rejects a keyword other than `AND`/`OR`, an
empty fragment list, and any empty fragment; it returns a single fragment
unchanged and joins two or more fragments by parenthesizing each and
interleaving the keyword surrounded by single spaces. -/
theorem logical_join_routine_spec (kw : String) (cs : List String) :
    (¬(kw = "AND" ∨ kw = "OR") →
      sqlSerializeLogicalClauses kw cs =
        .error (kw ++ " is not in supported operators: AND,OR")) ∧
    ((kw = "AND" ∨ kw = "OR") → cs = [] →
      sqlSerializeLogicalClauses kw cs = .error "sqlClauses is empty") ∧
    ((kw = "AND" ∨ kw = "OR") → "" ∈ cs →
      sqlSerializeLogicalClauses kw cs =
        .error ("Empty sql clause found in " ++
          jsStringify (.arr (cs.map .str)))) ∧
    ((kw = "AND" ∨ kw = "OR") → ∀ c, c ≠ "" →
      sqlSerializeLogicalClauses kw [c] = .ok c) ∧
    ((kw = "AND" ∨ kw = "OR") → 2 ≤ cs.length → (∀ c ∈ cs, c ≠ "") →
      sqlSerializeLogicalClauses kw cs =
        .ok (String.intercalate (" " ++ kw ++ " ")
          (cs.map (fun c => "(" ++ c ++ ")")))) := by
  refine ⟨?_, ?_, ?_, ?_, ?_⟩
  · intro h
    obtain ⟨h1, h2⟩ := not_or.mp h
    simp [sqlSerializeLogicalClauses, LOGICAL_OPERATORS_TO_SQL, h1, h2]
    simp only [String.append_assoc]
    rfl
  · rintro (rfl | rfl) rfl <;>
      simp [sqlSerializeLogicalClauses, LOGICAL_OPERATORS_TO_SQL]
  · intro hkw hmem
    have hne : cs ≠ [] := by rintro rfl; exact absurd hmem (by simp)
    have hany : (cs.any fun c => decide (c = "")) = true := by
      simp only [List.any_eq_true]
      exact ⟨"", hmem, by simp⟩
    rcases hkw with rfl | rfl <;>
      simp [sqlSerializeLogicalClauses, LOGICAL_OPERATORS_TO_SQL, hany,
        List.length_eq_zero, hne]
  · rintro (rfl | rfl) c hc <;>
      simp [sqlSerializeLogicalClauses, LOGICAL_OPERATORS_TO_SQL, hc,
        (Ne.symm hc : "" ≠ c)]
  · intro hkw hlen hall
    have hany : (cs.any fun c => decide (c = "")) = false := by
      simp only [List.any_eq_false]
      intro x hx
      simpa using hall x hx
    rcases cs with _ | ⟨a, _ | ⟨b, t⟩⟩
    · simp at hlen
    · simp at hlen
    · rcases hkw with rfl | rfl <;>
        simp [sqlSerializeLogicalClauses, LOGICAL_OPERATORS_TO_SQL, hany]

/-- C6 witness: joining two fragments with `OR`. -/
theorem logical_join_routine_spec_witness :
    sqlSerializeLogicalClauses "OR" ["x = ?", "y = ?"] =
      .ok "(x = ?) OR (y = ?)" :=
  (logical_join_routine_spec "OR" ["x = ?", "y = ?"]).2.2.2.2
    (Or.inr rfl) (by decide) (by decide)

/-! ### C8 — unrecognized `$`-prefixed top-level keys -/

/-- C8 counterexample: compiling `{"$not": [{a: true}]}` is rejected, but
the error message is `undefined is not in supported operators: AND,OR` — it
renders the failed SQL-keyword lookup (`undefined`), and does not contain
the offending operator symbol `$not`. -/
theorem unknown_logical_op_message_counterexample :
    build cfgMetaOnly (some (.obj [("$not", .arr [.obj [("a", .bool true)]])])) =
      .error "undefined is not in supported operators: AND,OR" ∧
    strContainsSub "undefined is not in supported operators: AND,OR" "$not" =
      false :=
  ⟨rfl, rfl⟩

/-- C8 amended: every top-level key beginning with `$` other than `$and` and
`$or` makes compilation fail with some error — the unsupported-operator
error from the join routine (naming `undefined`, not the symbol) when the
children compile, a child's own error, or a `TypeError` for a non-array
value. -/
theorem unknown_logical_operator_always_rejected (cfg : Config) (key : String)
    (value : JsonVal) (h1 : startsWithDollar key = true)
    (h2 : key ≠ "$and") (h3 : key ≠ "$or") :
    ∃ e, createWhereClause cfg (.obj [(key, value)]) = .error e := by
  have hlook : LOGICAL_OPERATORS_TO_SQL.lookup key = none := by
    simp [LOGICAL_OPERATORS_TO_SQL, List.lookup,
      beq_eq_false_iff_ne.mpr h2, beq_eq_false_iff_ne.mpr h3]
  cases value with
  | arr operands =>
      cases hlo : logicalOperands cfg operands with
      | error e =>
          refine ⟨e, ?_⟩
          simp only [createWhereClause, createWhereClauseEntries, h1,
            sqlSerializeLogicalOperation]
          simp [excBindOk, excBindErr, hlo]
      | ok pp =>
          refine ⟨"undefined is not in supported operators: AND,OR", ?_⟩
          simp only [createWhereClause, createWhereClauseEntries, h1,
            sqlSerializeLogicalOperation, hlook]
          simp [excBindOk, excBindErr, hlo, sqlSerializeLogicalClauses,
            LOGICAL_OPERATORS_TO_SQL]
          rfl
  | str s =>
      refine ⟨"TypeError: value is not iterable", ?_⟩
      simp only [createWhereClause, createWhereClauseEntries, h1,
        sqlSerializeLogicalOperation]
      simp [excBindOk, excBindErr]
  | num q =>
      refine ⟨"TypeError: value is not iterable", ?_⟩
      simp only [createWhereClause, createWhereClauseEntries, h1,
        sqlSerializeLogicalOperation]
      simp [excBindOk, excBindErr]
  | bool b =>
      refine ⟨"TypeError: value is not iterable", ?_⟩
      simp only [createWhereClause, createWhereClauseEntries, h1,
        sqlSerializeLogicalOperation]
      simp [excBindOk, excBindErr]
  | obj fs =>
      refine ⟨"TypeError: value is not iterable", ?_⟩
      simp only [createWhereClause, createWhereClauseEntries, h1,
        sqlSerializeLogicalOperation]
      simp [excBindOk, excBindErr]

/-- C8 witness: the rejection theorem applied to `{"$not": [{a: true}]}`. -/
theorem unknown_logical_operator_always_rejected_witness :
    ∃ e, createWhereClause cfgMetaOnly
      (.obj [("$not", .arr [.obj [("a", .bool true)]])]) = .error e :=
  unknown_logical_operator_always_rejected cfgMetaOnly "$not"
    (.arr [.obj [("a", .bool true)]]) (by decide) (by decide) (by decide)

/-! ### C9 — `$in` / `$nin` with an empty operand array -/

/-- C9: for every property key, `{key: {"$in": []}}` and
`{key: {"$nin": []}}` compile without error to `<selector> IN ()`
(respectively `<selector> NOT IN ()`) with an empty parameter list. -/
theorem in_operators_accept_empty_array (cfg : Config) (key : String)
    (hkey : startsWithDollar key = false) :
    createWhereClause cfg (.obj [(key, .obj [("$in", .arr [])])]) =
      .ok (createSelector cfg key ++ " IN ()", []) ∧
    createWhereClause cfg (.obj [(key, .obj [("$nin", .arr [])])]) =
      .ok (createSelector cfg key ++ " NOT IN ()", []) := by
  have hin : sqlSerializeColumnOperation cfg key "$in" (.arr []) =
      .ok (createSelector cfg key ++ " IN ()", []) := by
    simp only [sqlSerializeColumnOperation, LOGICAL_OPERATORS_TO_SQL,
      COLUMN_OPERATORS, COMPARISONS_TO_SQL, IN_OPERATORS_TO_SQL,
      BETWEEN_OPERATOR, LIKE_OPERATOR, CONTAINS_OPERATOR, List.lookup,
      columnOpKeyword]
    simp [excBindOk, List.mapM, List.mapM.loop]
    simp only [String.append_assoc]
    rfl
  have hnin : sqlSerializeColumnOperation cfg key "$nin" (.arr []) =
      .ok (createSelector cfg key ++ " NOT IN ()", []) := by
    simp only [sqlSerializeColumnOperation, LOGICAL_OPERATORS_TO_SQL,
      COLUMN_OPERATORS, COMPARISONS_TO_SQL, IN_OPERATORS_TO_SQL,
      BETWEEN_OPERATOR, LIKE_OPERATOR, CONTAINS_OPERATOR, List.lookup,
      columnOpKeyword]
    simp [excBindOk, List.mapM, List.mapM.loop]
    simp only [String.append_assoc]
    rfl
  constructor
  · have hne : "" ≠ createSelector cfg key ++ " IN ()" :=
      (append_ne_empty_right _ _ (by decide)).symm
    simp only [createWhereClause, createWhereClauseEntries, hkey, typeofStr,
      jsHasType, jsObjEntries]
    simp [excBindOk, excBindErr, hin, sqlSerializeLogicalClauses,
      LOGICAL_OPERATORS_TO_SQL, hne]
  · have hne : "" ≠ createSelector cfg key ++ " NOT IN ()" :=
      (append_ne_empty_right _ _ (by decide)).symm
    simp only [createWhereClause, createWhereClauseEntries, hkey, typeofStr,
      jsHasType, jsObjEntries]
    simp [excBindOk, excBindErr, hnin, sqlSerializeLogicalClauses,
      LOGICAL_OPERATORS_TO_SQL, hne]

/-- C9 witness: the empty-array theorem applied at a metadata key. -/
theorem in_operators_accept_empty_array_witness :
    createWhereClause cfgMetaOnly (.obj [("genre", .obj [("$in", .arr [])])]) =
      .ok (createSelector cfgMetaOnly "genre" ++ " IN ()", []) ∧
    createWhereClause cfgMetaOnly (.obj [("genre", .obj [("$nin", .arr [])])]) =
      .ok (createSelector cfgMetaOnly "genre" ++ " NOT IN ()", []) :=
  in_operators_accept_empty_array cfgMetaOnly "genre" (by decide)

/-! ### C10 — objects carrying a `type` key -/

/-- C10: a property value that is an object with a `type` key is handled by
the Literal Encoder's equality path regardless of how many keys it carries
(never the single-entry operator dispatch): with `type = "date"` it becomes
a `TO_DATE(?)` equality on the date field's string form, and with any other
`type` it fails with the `Cannot handle value` error. -/
theorem type_tagged_value_bypasses_operator_dispatch (cfg : Config)
    (key : String) (fs : List (String × JsonVal))
    (hkey : startsWithDollar key = false)
    (htype : jsHasType (.obj fs) = true) :
    (∀ d, fs.lookup "type" = some (.str "date") → fs.lookup "date" = some d →
      createWhereClause cfg (.obj [(key, .obj fs)]) =
        .ok (createSelector cfg key ++ " = TO_DATE(?)", [jsToString d])) ∧
    (∀ t, fs.lookup "type" = some t → t ≠ .str "date" →
      createWhereClause cfg (.obj [(key, .obj fs)]) =
        .error ("Cannot handle value " ++ jsStringify (.obj fs))) := by
  have hany : (fs.any fun kv => decide (kv.1 = "type")) = true := by
    simpa [jsHasType] using htype
  constructor
  · intro d htypeEq hdate
    have hdet : determineTypedSqlPlaceholder (.obj fs) =
        .ok ("TO_DATE(?)", jsToString d) := by
      simp [determineTypedSqlPlaceholder, htypeEq, hdate]
    have hne : "" ≠ createSelector cfg key ++ " = " ++ "TO_DATE(?)" :=
      (append_ne_empty_right _ _ (by decide)).symm
    simp only [createWhereClause, createWhereClauseEntries, hkey, typeofStr,
      jsHasType, jsObjEntries, sqlSerializeLogicalClauses,
      LOGICAL_OPERATORS_TO_SQL]
    simp [excBindOk, excBindErr, hany, hdet, hne]
    simp only [String.append_assoc]
    rfl
  · intro t htypeEq hne
    have hdet : determineTypedSqlPlaceholder (.obj fs) =
        .error ("Cannot handle value " ++ jsStringify (.obj fs)) := by
      cases t with
      | str s =>
          have hs : s ≠ "date" := fun h => hne (by rw [h])
          simp [determineTypedSqlPlaceholder, htypeEq, hs]
      | num q => simp [determineTypedSqlPlaceholder, htypeEq]
      | bool b => simp [determineTypedSqlPlaceholder, htypeEq]
      | obj g => simp [determineTypedSqlPlaceholder, htypeEq]
      | arr g => simp [determineTypedSqlPlaceholder, htypeEq]
    simp only [createWhereClause, createWhereClauseEntries, hkey, typeofStr,
      jsHasType, jsObjEntries]
    simp [excBindOk, excBindErr, hany, hdet]

/-- C10 witness: a three-key date-tagged value compiles to a date-cast
equality, and a `type: "point"` value fails with `Cannot handle value`. -/
theorem type_tagged_value_bypasses_operator_dispatch_witness :
    createWhereClause cfgMetaOnly
        (.obj [("k", .obj [("type", .str "date"),
          ("date", .str "2024-01-01"), ("x", .num 5)])]) =
      .ok (createSelector cfgMetaOnly "k" ++ " = TO_DATE(?)",
           [jsToString (.str "2024-01-01")]) ∧
    createWhereClause cfgMetaOnly
        (.obj [("k", .obj [("type", .str "point"), ("x", .num 5)])]) =
      .error ("Cannot handle value " ++
        jsStringify (.obj [("type", .str "point"), ("x", .num 5)])) :=
  ⟨(type_tagged_value_bypasses_operator_dispatch cfgMetaOnly "k"
      [("type", .str "date"), ("date", .str "2024-01-01"), ("x", .num 5)]
      (by decide) (by decide)).1 (.str "2024-01-01") rfl rfl,
   (type_tagged_value_bypasses_operator_dispatch cfgMetaOnly "k"
      [("type", .str "point"), ("x", .num 5)]
      (by decide) (by decide)).2 (.str "point") rfl (by simp)⟩

end CreateWhereClause
